import Mathlib

/-!
Verification of the build-orchestration core of src/yummy.py (a tkinter
front end around an external Java toolchain).

The embedding below models, faithfully to the source:
  * detect_main_class (line 411): re.search of the pattern
    public\s+class\s+(\w+) and extraction of group 1.  The regex classes
    \s and \w are modelled over their ASCII members (the identifiers and
    texts the program manipulates are ASCII); the greedy quantifiers of
    this particular pattern are deterministic because \s is disjoint from
    both the literal letters and \w, so each atom consumes its maximal run.
  * compile_java (line 456): input validation, entry-identifier
    defaulting via the extractor, author defaulting, and the hand-off of
    the stripped editor text to the worker thread.
  * compile_java_thread (line 495): the build pipeline.  External
    processes are stubbed by a ProcResult (return code, stdout, stderr)
    supplied as a parameter; filesystem and UI effects are recorded in a
    ThreadResult trace.  cleanupFails injects a failure of the final
    shutil.rmtree in the finally block: when it is true the exception
    escapes the thread (cleanupRaised) and the two root.after callbacks
    that reset the UI never run (uiReset = false).
  * add_jar_dependency (line 431): extension of the dependency list with
    the files not already present.
  * os.path.basename, pathlib Path.absolute and os.pathsep are modelled
    for posix paths; the platform path separator is a parameter.
-/

/-- Python regex class \s (ASCII members). -/
def pySpace (c : Char) : Bool :=
  c = ' ' || c = '\t' || c = '\n' || c = '\r' || c = '\x0b' || c = '\x0c'

/-- Python regex class \w (ASCII members): letters, digits, underscore. -/
def pyWord (c : Char) : Bool :=
  c.isAlpha || c.isDigit || c = '_'

/-- Python str.strip with no argument: remove leading and trailing whitespace. -/
def pyStrip (s : String) : String :=
  String.mk (((s.data.dropWhile pySpace).reverse.dropWhile pySpace).reverse)

/-- Match a literal character sequence at the head of the input, returning
the remainder. -/
def stripLit : List Char → List Char → Option (List Char)
  | [], cs => some cs
  | _ :: _, [] => none
  | p :: ps, c :: cs => if c = p then stripLit ps cs else none

/-- The regex atom \s+ (greedy): require at least one whitespace character
and consume the maximal run. -/
def dropSpaces1 : List Char → Option (List Char)
  | [] => none
  | c :: cs => if pySpace c then some (cs.dropWhile pySpace) else none

/-- The capturing group (\w+) (greedy): require at least one word character
and capture the maximal run. -/
def takeWord1 : List Char → Option String
  | [] => none
  | c :: cs => if pyWord c then some (String.mk (c :: cs.takeWhile pyWord)) else none

/-- One attempt of the pattern public\s+class\s+(\w+) anchored at the given
position; returns the text of group 1 on success. -/
def matchPCAt (cs : List Char) : Option String :=
  match stripLit "public".data cs with
  | none => none
  | some cs1 =>
    match dropSpaces1 cs1 with
    | none => none
    | some cs2 =>
      match stripLit "class".data cs2 with
      | none => none
      | some cs3 =>
        match dropSpaces1 cs3 with
        | none => none
        | some cs4 => takeWord1 cs4

/-- re.search: try the pattern at each position from the left; the earliest
position that matches wins. -/
def searchPC : List Char → Option String
  | [] => none
  | c :: cs =>
    match matchPCAt (c :: cs) with
    | some w => some w
    | none => searchPC cs

/-- yummy.py line 411: detect_main_class, the identifier extractor. -/
def detect_main_class (java_code : String) : Option String :=
  searchPC java_code.data

/-- Statement helper: the next character (if any) cannot extend a \w+ token,
i.e. the preceding word ends here. -/
def headNotWord (cs : List Char) : Bool :=
  match cs.head? with
  | none => true
  | some c => !pyWord c

/-- Modelled from the spec (BuildRequest invariant, used only to state the
C9 claim): identifier syntax is a non-empty string of letters, digits and
underscores that does not start with a digit. -/
def specValidIdentifier (s : String) : Bool :=
  match s.data with
  | [] => false
  | c :: _ => (c.isAlpha || c = '_') && s.data.all pyWord

/-- os.path.basename, posix model: the part after the last slash. -/
def basename (p : String) : String :=
  String.mk ((p.data.reverse.takeWhile (fun c => c ≠ '/')).reverse)

/-- pathlib Path(p).absolute(), posix model: an absolute path is returned
unchanged, anything else is joined onto the current working directory. -/
def pathAbsolute (cwd p : String) : String :=
  if p.data.head? = some '/' then p else cwd ++ "/" ++ p

/-- Python sep.join(xs). -/
def pyJoin (sep : String) : List String → String
  | [] => ""
  | [x] => x
  | x :: y :: xs => x ++ sep ++ pyJoin sep (y :: xs)

/-- yummy.py line 510: the staged classpath, every dependency resolved to an
absolute path. -/
def stagedClasspath (cwd : String) (jarDeps : List String) : List String :=
  jarDeps.map (pathAbsolute cwd)

/-- yummy.py line 546: the entries of the manifest Class-Path line, the base
name of every staged dependency in order. -/
def classPathEntries (classpath : List String) : List String :=
  classpath.map basename

/-- yummy.py lines 541-546: the manifest text.  The Class-Path line is
emitted only when the classpath list is non-empty. -/
def manifestText (main_class author : String) (classpath : List String) : String :=
  "Manifest-Version: 1.0\n" ++
  "Main-Class: " ++ main_class ++ "\n" ++
  "Author: " ++ author ++ "\n" ++
  (if classpath.isEmpty then ""
   else "Class-Path: " ++ pyJoin " " (classPathEntries classpath) ++ "\n")

/-- yummy.py lines 514-517: the javac command.  The -cp argument is added
only when the joined classpath string is non-empty. -/
def compileCommand (cwd pathsep : String) (jarDeps : List String) (main_class : String) :
    List String :=
  ["javac", "-d", "temp_build"] ++
  (if pyJoin pathsep (stagedClasspath cwd jarDeps) = "" then []
   else ["-cp", pyJoin pathsep (stagedClasspath cwd jarDeps)]) ++
  ["temp_build/" ++ main_class ++ ".java"]

/-- yummy.py lines 549-554: the jar command. -/
def jarCommand (cwd output_jar : String) : List String :=
  ["jar", "cfm", pathAbsolute cwd output_jar, "temp_build/MANIFEST.MF",
   "-C", "temp_build", "."]

/-- The captured result of one external process (subprocess.run with
capture_output=True): exit status, stdout text, stderr text. -/
structure ProcResult where
  returncode : Int
  stdout : String
  stderr : String
deriving DecidableEq

/-- The stage of the pipeline a failure is attributed to. -/
inductive Stage
  | Compile
  | Package
  | Internal
deriving DecidableEq

/-- The outcome of one build. -/
inductive BuildOutcome
  | success (archivePath : String)
  | failure (stage : Stage) (diagnostic : String)
deriving DecidableEq

/-- The message boxes the thread schedules on the UI event loop via
root.after. -/
inductive Dialog
  | compileError
  | jarError
  | successInfo (archivePath : String)
deriving DecidableEq

/-- The observable trace of one run of compile_java_thread:
  * outcome tags the branch taken (compile failure / jar failure / success)
    with the diagnostic it surfaces, per the BuildOutcome correspondence;
  * outputLines are the append_output calls in order (the log sink);
  * dialogs are the scheduled message boxes;
  * javaWritten and manifestWritten record the file writes into the
    workspace (file name and content);
  * compileCmd and jarCmd record the external commands actually spawned;
  * finalWorkspaceExists is whether temp_build survives the finally block;
  * uiReset is whether the finally block reached the two root.after calls
    that restore the status bar and the compile button;
  * cleanupRaised is whether the finally block's rmtree raised, in which
    case the exception escapes the thread. -/
structure ThreadResult where
  outcome : BuildOutcome
  outputLines : List String
  dialogs : List Dialog
  javaWritten : Option (String × String)
  manifestWritten : Option String
  compileCmd : Option (List String)
  jarCmd : Option (List String)
  finalWorkspaceExists : Bool
  uiReset : Bool
  cleanupRaised : Bool
deriving DecidableEq

/-- yummy.py lines 495-592: the build pipeline run on the worker thread.
jarDeps is self.jar_dependencies; cwd and pathsep model the process
working directory and os.pathsep; compileRes and jarRes stub the two
subprocess.run calls; cleanupFails injects a failure of the rmtree in the
finally block. -/
def compile_java_thread (jarDeps : List String) (cwd pathsep : String)
    (java_code output_jar main_class author : String)
    (compileRes jarRes : ProcResult) (cleanupFails : Bool) : ThreadResult :=
  if compileRes.returncode ≠ 0 then
    { outcome := BuildOutcome.failure Stage.Compile compileRes.stderr
      outputLines := ["Compile command: " ++
                        pyJoin " " (compileCommand cwd pathsep jarDeps main_class) ++ "\n",
                      "Compilation failed:\n", compileRes.stderr]
      dialogs := [Dialog.compileError]
      javaWritten := some ("temp_build/" ++ main_class ++ ".java", java_code)
      manifestWritten := none
      compileCmd := some (compileCommand cwd pathsep jarDeps main_class)
      jarCmd := none
      finalWorkspaceExists := cleanupFails
      uiReset := !cleanupFails
      cleanupRaised := cleanupFails }
  else if jarRes.returncode ≠ 0 then
    { outcome := BuildOutcome.failure Stage.Package jarRes.stderr
      outputLines := ["Compile command: " ++
                        pyJoin " " (compileCommand cwd pathsep jarDeps main_class) ++ "\n",
                      "Compilation successful!\n",
                      "JAR command: " ++ pyJoin " " (jarCommand cwd output_jar) ++ "\n",
                      "JAR creation failed:\n", jarRes.stderr]
      dialogs := [Dialog.jarError]
      javaWritten := some ("temp_build/" ++ main_class ++ ".java", java_code)
      manifestWritten := some (manifestText main_class author (stagedClasspath cwd jarDeps))
      compileCmd := some (compileCommand cwd pathsep jarDeps main_class)
      jarCmd := some (jarCommand cwd output_jar)
      finalWorkspaceExists := cleanupFails
      uiReset := !cleanupFails
      cleanupRaised := cleanupFails }
  else
    { outcome := BuildOutcome.success output_jar
      outputLines := ["Compile command: " ++
                        pyJoin " " (compileCommand cwd pathsep jarDeps main_class) ++ "\n",
                      "Compilation successful!\n",
                      "JAR command: " ++ pyJoin " " (jarCommand cwd output_jar) ++ "\n",
                      "Successfully created JAR file: " ++ output_jar ++ "\n"]
      dialogs := [Dialog.successInfo output_jar]
      javaWritten := some ("temp_build/" ++ main_class ++ ".java", java_code)
      manifestWritten := some (manifestText main_class author (stagedClasspath cwd jarDeps))
      compileCmd := some (compileCommand cwd pathsep jarDeps main_class)
      jarCmd := some (jarCommand cwd output_jar)
      finalWorkspaceExists := cleanupFails
      uiReset := !cleanupFails
      cleanupRaised := cleanupFails }

/-- The arguments compile_java hands to the worker thread. -/
structure ThreadArgs where
  java_code : String
  output_jar : String
  main_class : String
  author : String
deriving DecidableEq

/-- yummy.py lines 456-493: compile_java, the public entry point.  Returns
none when no build thread is started (empty code, no resolvable main
class, or the save dialog cancelled, modelled as an empty chosen path);
otherwise the arguments passed to compile_java_thread. -/
def compile_java (editorText mainClassEntry authorEntry chosenOutput : String) :
    Option ThreadArgs :=
  if pyStrip editorText = "" then none
  else
    match (if pyStrip mainClassEntry = ""
           then detect_main_class (pyStrip editorText)
           else some (pyStrip mainClassEntry)) with
    | none => none
    | some main_class =>
      if chosenOutput = "" then none
      else some { java_code := pyStrip editorText
                  output_jar := chosenOutput
                  main_class := main_class
                  author := if pyStrip authorEntry = "" then "Unknown"
                            else pyStrip authorEntry }

/-- yummy.py lines 431-443: add_jar_dependency, extending the dependency
list with the chosen files that are not already present. -/
def add_jar_dependency (deps files : List String) : List String :=
  deps ++ files.filter (fun f => !(deps.contains f))
section ThreadLemmas

variable (jarDeps : List String) (cwd pathsep java_code output_jar main_class author : String)
variable (compileRes jarRes : ProcResult) (cf : Bool)

/-- The javac command is recorded identically on every branch. -/
theorem thread_compileCmd :
    (compile_java_thread jarDeps cwd pathsep java_code output_jar main_class author
        compileRes jarRes cf).compileCmd
      = some (compileCommand cwd pathsep jarDeps main_class) := by
  unfold compile_java_thread
  split
  · rfl
  · split <;> rfl

/-- The source file is written identically on every branch. -/
theorem thread_javaWritten :
    (compile_java_thread jarDeps cwd pathsep java_code output_jar main_class author
        compileRes jarRes cf).javaWritten
      = some ("temp_build/" ++ main_class ++ ".java", java_code) := by
  unfold compile_java_thread
  split
  · rfl
  · split <;> rfl

/-- The manifest is written exactly when the compiler succeeded. -/
theorem thread_manifestWritten :
    (compile_java_thread jarDeps cwd pathsep java_code output_jar main_class author
        compileRes jarRes cf).manifestWritten
      = if compileRes.returncode = 0
        then some (manifestText main_class author (stagedClasspath cwd jarDeps))
        else none := by
  unfold compile_java_thread
  split
  · rfl
  · rename_i h
    rw [if_pos (not_ne_iff.mp h)]
    split <;> rfl

/-- The jar tool is spawned exactly when the compiler succeeded. -/
theorem thread_jarCmd :
    (compile_java_thread jarDeps cwd pathsep java_code output_jar main_class author
        compileRes jarRes cf).jarCmd
      = if compileRes.returncode = 0 then some (jarCommand cwd output_jar) else none := by
  unfold compile_java_thread
  split
  · rfl
  · rename_i h
    rw [if_pos (not_ne_iff.mp h)]
    split <;> rfl

/-- The outcome of each branch. -/
theorem thread_outcome :
    (compile_java_thread jarDeps cwd pathsep java_code output_jar main_class author
        compileRes jarRes cf).outcome
      = if compileRes.returncode ≠ 0
        then BuildOutcome.failure Stage.Compile compileRes.stderr
        else if jarRes.returncode ≠ 0
        then BuildOutcome.failure Stage.Package jarRes.stderr
        else BuildOutcome.success output_jar := by
  unfold compile_java_thread
  split
  · rfl
  · split <;> rfl

/-- The dialog scheduled by each branch. -/
theorem thread_dialogs :
    (compile_java_thread jarDeps cwd pathsep java_code output_jar main_class author
        compileRes jarRes cf).dialogs
      = if compileRes.returncode ≠ 0 then [Dialog.compileError]
        else if jarRes.returncode ≠ 0 then [Dialog.jarError]
        else [Dialog.successInfo output_jar] := by
  unfold compile_java_thread
  split
  · rfl
  · split <;> rfl

/-- The finally block: the workspace survives exactly when its removal failed. -/
theorem thread_finalWorkspaceExists :
    (compile_java_thread jarDeps cwd pathsep java_code output_jar main_class author
        compileRes jarRes cf).finalWorkspaceExists = cf := by
  unfold compile_java_thread
  split
  · rfl
  · split <;> rfl

/-- The finally block: the UI reset callbacks run exactly when the removal
did not raise. -/
theorem thread_uiReset :
    (compile_java_thread jarDeps cwd pathsep java_code output_jar main_class author
        compileRes jarRes cf).uiReset = !cf := by
  unfold compile_java_thread
  split
  · rfl
  · split <;> rfl

/-- The finally block: an exception escapes exactly when the removal failed. -/
theorem thread_cleanupRaised :
    (compile_java_thread jarDeps cwd pathsep java_code output_jar main_class author
        compileRes jarRes cf).cleanupRaised = cf := by
  unfold compile_java_thread
  split
  · rfl
  · split <;> rfl

end ThreadLemmas

/-- Claim C1: for every build in which the external compiler process exits
with a non-zero status, the build reports Failure at the Compile stage
carrying the captured stderr, the pipeline stops (the external archiver is
never invoked and no manifest is written), and the workspace directory is
still removed before the build returns (its removal in the finally block
is modelled as succeeding, cleanupFails = false). -/
theorem compile_failure_stops_pipeline
    (jarDeps : List String) (cwd pathsep java_code output_jar main_class author : String)
    (compileRes jarRes : ProcResult) (hc : compileRes.returncode ≠ 0) :
    (compile_java_thread jarDeps cwd pathsep java_code output_jar main_class author
        compileRes jarRes false).outcome
      = BuildOutcome.failure Stage.Compile compileRes.stderr ∧
    (compile_java_thread jarDeps cwd pathsep java_code output_jar main_class author
        compileRes jarRes false).jarCmd = none ∧
    (compile_java_thread jarDeps cwd pathsep java_code output_jar main_class author
        compileRes jarRes false).manifestWritten = none ∧
    (compile_java_thread jarDeps cwd pathsep java_code output_jar main_class author
        compileRes jarRes false).finalWorkspaceExists = false := by
  refine ⟨?_, ?_, ?_, ?_⟩
  · rw [thread_outcome, if_pos hc]
  · rw [thread_jarCmd, if_neg hc]
  · rw [thread_manifestWritten, if_neg hc]
  · exact thread_finalWorkspaceExists ..

/-- Witness for C1 at a concrete failing compiler stub. -/
theorem compile_failure_stops_pipeline_witness :
    (compile_java_thread [] "/w" ":" "code" "out.jar" "Main" "A"
        ⟨1, "", "boom"⟩ ⟨0, "", ""⟩ false).outcome
      = BuildOutcome.failure Stage.Compile "boom" ∧
    (compile_java_thread [] "/w" ":" "code" "out.jar" "Main" "A"
        ⟨1, "", "boom"⟩ ⟨0, "", ""⟩ false).jarCmd = none ∧
    (compile_java_thread [] "/w" ":" "code" "out.jar" "Main" "A"
        ⟨1, "", "boom"⟩ ⟨0, "", ""⟩ false).manifestWritten = none ∧
    (compile_java_thread [] "/w" ":" "code" "out.jar" "Main" "A"
        ⟨1, "", "boom"⟩ ⟨0, "", ""⟩ false).finalWorkspaceExists = false :=
  compile_failure_stops_pipeline [] "/w" ":" "code" "out.jar" "Main" "A"
    ⟨1, "", "boom"⟩ ⟨0, "", ""⟩ (by decide)

/-- Claim C2: for every build, whichever external step failed or succeeded,
the workspace directory is removed before the build returns (the removal
itself modelled as succeeding, cleanupFails = false); in particular when
both external tools succeed the build reports Success and the workspace no
longer exists. -/
theorem workspace_always_removed
    (jarDeps : List String) (cwd pathsep java_code output_jar main_class author : String)
    (compileRes jarRes : ProcResult) :
    (compile_java_thread jarDeps cwd pathsep java_code output_jar main_class author
        compileRes jarRes false).finalWorkspaceExists = false ∧
    (compileRes.returncode = 0 → jarRes.returncode = 0 →
      (compile_java_thread jarDeps cwd pathsep java_code output_jar main_class author
          compileRes jarRes false).outcome = BuildOutcome.success output_jar) := by
  refine ⟨thread_finalWorkspaceExists .., fun hc hj => ?_⟩
  rw [thread_outcome, if_neg (not_ne_iff.mpr hc), if_neg (not_ne_iff.mpr hj)]

/-- Witness for C2 at concrete succeeding stubs. -/
theorem workspace_always_removed_witness :
    (compile_java_thread [] "/w" ":" "code" "out.jar" "Main" "A"
        ⟨0, "", ""⟩ ⟨0, "", ""⟩ false).finalWorkspaceExists = false ∧
    (compile_java_thread [] "/w" ":" "code" "out.jar" "Main" "A"
        ⟨0, "", ""⟩ ⟨0, "", ""⟩ false).outcome = BuildOutcome.success "out.jar" :=
  ⟨(workspace_always_removed [] "/w" ":" "code" "out.jar" "Main" "A"
      ⟨0, "", ""⟩ ⟨0, "", ""⟩).1,
   (workspace_always_removed [] "/w" ":" "code" "out.jar" "Main" "A"
      ⟨0, "", ""⟩ ⟨0, "", ""⟩).2 (by decide) (by decide)⟩

/-- Claim C4: for every build in which the compiler exits with status zero
but the archiver exits non-zero, the build reports Failure at the Package
stage carrying the archiver stderr, which is also surfaced verbatim on the
log sink. -/
theorem package_failure_reports_stderr
    (jarDeps : List String) (cwd pathsep java_code output_jar main_class author : String)
    (compileRes jarRes : ProcResult) (cf : Bool)
    (hc : compileRes.returncode = 0) (hj : jarRes.returncode ≠ 0) :
    (compile_java_thread jarDeps cwd pathsep java_code output_jar main_class author
        compileRes jarRes cf).outcome
      = BuildOutcome.failure Stage.Package jarRes.stderr ∧
    jarRes.stderr ∈
      (compile_java_thread jarDeps cwd pathsep java_code output_jar main_class author
          compileRes jarRes cf).outputLines := by
  constructor
  · rw [thread_outcome, if_neg (not_ne_iff.mpr hc), if_pos hj]
  · unfold compile_java_thread
    rw [if_neg (not_ne_iff.mpr hc), if_pos hj]
    simp

/-- Witness for C4 at a concrete failing archiver stub. -/
theorem package_failure_reports_stderr_witness :
    (compile_java_thread [] "/w" ":" "code" "out.jar" "Main" "A"
        ⟨0, "", ""⟩ ⟨2, "", "jar broke"⟩ false).outcome
      = BuildOutcome.failure Stage.Package "jar broke" ∧
    "jar broke" ∈
      (compile_java_thread [] "/w" ":" "code" "out.jar" "Main" "A"
          ⟨0, "", ""⟩ ⟨2, "", "jar broke"⟩ false).outputLines :=
  package_failure_reports_stderr [] "/w" ":" "code" "out.jar" "Main" "A"
    ⟨0, "", ""⟩ ⟨2, "", "jar broke"⟩ false (by decide) (by decide)

/-- Counterexample to claim C8 as stated: a build in which both external
tools succeed but the final workspace removal fails.  The Success dialog is
still scheduled, but the cleanup error is not surfaced as a logged warning:
the log sink receives exactly the four ordinary progress lines and nothing
about the cleanup, and the rmtree exception escapes the build thread
uncaught, skipping the status/button reset callbacks. -/
theorem cleanup_error_not_logged_counterexample :
    (compile_java_thread [] "/w" ":" "public class A" "out.jar" "A" "Auth"
        ⟨0, "ok", ""⟩ ⟨0, "", ""⟩ true).outputLines
      = ["Compile command: javac -d temp_build temp_build/A.java\n",
         "Compilation successful!\n",
         "JAR command: jar cfm /w/out.jar temp_build/MANIFEST.MF -C temp_build .\n",
         "Successfully created JAR file: out.jar\n"] ∧
    (compile_java_thread [] "/w" ":" "public class A" "out.jar" "A" "Auth"
        ⟨0, "ok", ""⟩ ⟨0, "", ""⟩ true).cleanupRaised = true ∧
    (compile_java_thread [] "/w" ":" "public class A" "out.jar" "A" "Auth"
        ⟨0, "ok", ""⟩ ⟨0, "", ""⟩ true).uiReset = false ∧
    (compile_java_thread [] "/w" ":" "public class A" "out.jar" "A" "Auth"
        ⟨0, "ok", ""⟩ ⟨0, "", ""⟩ true).dialogs = [Dialog.successInfo "out.jar"] := by
  decide

/-- Claim C8 as amended: a failure during the cleanup phase does not mask a
successful build's outcome - the Success dialog is scheduled before the
finally block runs, so the build still reports Success - but the cleanup
error is not logged: the exception escapes the build thread uncaught, the
workspace survives, and the UI reset callbacks are skipped. -/
theorem cleanup_failure_does_not_mask_success
    (jarDeps : List String) (cwd pathsep java_code output_jar main_class author : String)
    (compileRes jarRes : ProcResult)
    (hc : compileRes.returncode = 0) (hj : jarRes.returncode = 0) :
    (compile_java_thread jarDeps cwd pathsep java_code output_jar main_class author
        compileRes jarRes true).outcome = BuildOutcome.success output_jar ∧
    (compile_java_thread jarDeps cwd pathsep java_code output_jar main_class author
        compileRes jarRes true).dialogs = [Dialog.successInfo output_jar] ∧
    (compile_java_thread jarDeps cwd pathsep java_code output_jar main_class author
        compileRes jarRes true).cleanupRaised = true ∧
    (compile_java_thread jarDeps cwd pathsep java_code output_jar main_class author
        compileRes jarRes true).uiReset = false ∧
    (compile_java_thread jarDeps cwd pathsep java_code output_jar main_class author
        compileRes jarRes true).finalWorkspaceExists = true := by
  refine ⟨?_, ?_, thread_cleanupRaised .., ?_, thread_finalWorkspaceExists ..⟩
  · rw [thread_outcome, if_neg (not_ne_iff.mpr hc), if_neg (not_ne_iff.mpr hj)]
  · rw [thread_dialogs, if_neg (not_ne_iff.mpr hc), if_neg (not_ne_iff.mpr hj)]
  · rw [thread_uiReset]
    rfl

/-- Witness for the amended C8 at concrete succeeding stubs. -/
theorem cleanup_failure_does_not_mask_success_witness :
    (compile_java_thread [] "/w" ":" "code" "out.jar" "Main" "A"
        ⟨0, "", ""⟩ ⟨0, "", ""⟩ true).outcome = BuildOutcome.success "out.jar" ∧
    (compile_java_thread [] "/w" ":" "code" "out.jar" "Main" "A"
        ⟨0, "", ""⟩ ⟨0, "", ""⟩ true).dialogs = [Dialog.successInfo "out.jar"] ∧
    (compile_java_thread [] "/w" ":" "code" "out.jar" "Main" "A"
        ⟨0, "", ""⟩ ⟨0, "", ""⟩ true).cleanupRaised = true ∧
    (compile_java_thread [] "/w" ":" "code" "out.jar" "Main" "A"
        ⟨0, "", ""⟩ ⟨0, "", ""⟩ true).uiReset = false ∧
    (compile_java_thread [] "/w" ":" "code" "out.jar" "Main" "A"
        ⟨0, "", ""⟩ ⟨0, "", ""⟩ true).finalWorkspaceExists = true :=
  cleanup_failure_does_not_mask_success [] "/w" ":" "code" "out.jar" "Main" "A"
    ⟨0, "", ""⟩ ⟨0, "", ""⟩ (by decide) (by decide)

/-- An absolutised path is never the empty string. -/
theorem pathAbsolute_data_ne_nil (cwd p : String) : (pathAbsolute cwd p).data ≠ [] := by
  unfold pathAbsolute
  split
  · rename_i h
    intro hnil
    rw [hnil] at h
    exact Option.noConfusion h
  · intro hnil
    rw [String.data_append, String.data_append,
        show ("/" : String).data = ['/'] from rfl] at hnil
    simp at hnil

/-- Joining a list that starts with a non-empty string is non-empty. -/
theorem pyJoin_cons_ne_empty (sep x : String) (xs : List String) (hx : x.data ≠ []) :
    pyJoin sep (x :: xs) ≠ "" := by
  cases xs with
  | nil =>
    intro he
    rw [show pyJoin sep [x] = x from rfl] at he
    exact hx (by rw [he])
  | cons y ys =>
    intro he
    have hd : (pyJoin sep (x :: y :: ys)).data = [] := by rw [he]
    rw [show pyJoin sep (x :: y :: ys) = x ++ sep ++ pyJoin sep (y :: ys) from rfl,
        String.data_append, String.data_append] at hd
    exact hx (List.append_eq_nil.mp (List.append_eq_nil.mp hd).1).1

/-- The staged source file argument is never the -cp flag. -/
theorem java_file_ne_cp (mc : String) : "temp_build/" ++ mc ++ ".java" ≠ "-cp" := by
  intro h
  have hd : ("temp_build/" ++ mc ++ ".java").data = "-cp".data := by rw [h]
  rw [String.data_append, String.data_append,
      show ("temp_build/" : String).data
        = 't' :: 'e' :: 'm' :: 'p' :: '_' :: 'b' :: 'u' :: 'i' :: 'l' :: 'd' :: '/' :: [] from rfl,
      show ("-cp" : String).data = '-' :: 'c' :: 'p' :: [] from rfl] at hd
  simp only [List.cons_append] at hd
  injection hd with h1 _
  exact absurd h1 (by decide)

/-- The -cp search-path argument is present exactly when the dependency
list is non-empty. -/
theorem cp_mem_iff (cwd pathsep mc : String) (deps : List String) :
    "-cp" ∈ compileCommand cwd pathsep deps mc ↔ deps ≠ [] := by
  constructor
  · intro hmem hnil
    subst hnil
    rw [show compileCommand cwd pathsep [] mc
          = ["javac", "-d", "temp_build", "temp_build/" ++ mc ++ ".java"] from rfl] at hmem
    simp only [List.mem_cons, List.not_mem_nil, or_false] at hmem
    rcases hmem with h | h | h | h
    · exact absurd h (by decide)
    · exact absurd h (by decide)
    · exact absurd h (by decide)
    · exact java_file_ne_cp mc h.symm
  · intro hne
    cases deps with
    | nil => exact absurd rfl hne
    | cons d ds =>
      have hcs : ¬ pyJoin pathsep (stagedClasspath cwd (d :: ds)) = "" := by
        rw [show stagedClasspath cwd (d :: ds)
              = pathAbsolute cwd d :: stagedClasspath cwd ds from rfl]
        exact pyJoin_cons_ne_empty pathsep _ _ (pathAbsolute_data_ne_nil cwd d)
      unfold compileCommand
      rw [if_neg hcs]
      simp

/-- Claim C5: for every build with dependency paths /libs/a.jar and
/libs/b.jar, the javac command carries a -cp argument holding both absolute
paths joined by the platform path separator, the generated manifest (on
compile success) contains the line Class-Path: a.jar b.jar of space-joined
base names, and across all builds the -cp argument is present exactly when
the dependency list is non-empty. -/
theorem dependency_classpath_and_manifest
    (cwd pathsep java_code output_jar main_class author : String)
    (compileRes jarRes : ProcResult) (cf : Bool) :
    (compile_java_thread ["/libs/a.jar", "/libs/b.jar"] cwd pathsep java_code output_jar
        main_class author compileRes jarRes cf).compileCmd
      = some ["javac", "-d", "temp_build",
              "-cp", "/libs/a.jar" ++ pathsep ++ "/libs/b.jar",
              "temp_build/" ++ main_class ++ ".java"] ∧
    (compileRes.returncode = 0 →
      (compile_java_thread ["/libs/a.jar", "/libs/b.jar"] cwd pathsep java_code output_jar
          main_class author compileRes jarRes cf).manifestWritten
        = some ("Manifest-Version: 1.0\n" ++ "Main-Class: " ++ main_class ++ "\n" ++
                "Author: " ++ author ++ "\n" ++ "Class-Path: a.jar b.jar\n")) ∧
    (∀ deps : List String,
      ("-cp" ∈ (compile_java_thread deps cwd pathsep java_code output_jar main_class author
          compileRes jarRes cf).compileCmd.getD [] ↔ deps ≠ [])) := by
  refine ⟨?_, fun hc => ?_, fun deps => ?_⟩
  · rw [thread_compileCmd]
    have hcs : ¬ pyJoin pathsep (stagedClasspath cwd ["/libs/a.jar", "/libs/b.jar"]) = "" := by
      rw [show stagedClasspath cwd ["/libs/a.jar", "/libs/b.jar"]
            = "/libs/a.jar" :: stagedClasspath cwd ["/libs/b.jar"] from rfl]
      exact pyJoin_cons_ne_empty pathsep _ _ (by decide)
    unfold compileCommand
    rw [if_neg hcs]
    rfl
  · rw [thread_manifestWritten, if_pos hc]
    rfl
  · rw [thread_compileCmd]
    simp only [Option.getD_some]
    exact cp_mem_iff cwd pathsep main_class deps

/-- Witness for C5: the manifest line and the -cp iff at concrete inputs. -/
theorem dependency_classpath_and_manifest_witness :
    (compile_java_thread ["/libs/a.jar", "/libs/b.jar"] "/w" ":" "code" "out.jar"
        "Main" "A" ⟨0, "", ""⟩ ⟨0, "", ""⟩ false).manifestWritten
      = some ("Manifest-Version: 1.0\n" ++ "Main-Class: " ++ "Main" ++ "\n" ++
              "Author: " ++ "A" ++ "\n" ++ "Class-Path: a.jar b.jar\n") ∧
    ("-cp" ∈ (compile_java_thread ["/libs/a.jar"] "/w" ":" "code" "out.jar" "Main" "A"
        ⟨0, "", ""⟩ ⟨0, "", ""⟩ false).compileCmd.getD [] ↔
      (["/libs/a.jar"] : List String) ≠ []) :=
  ⟨(dependency_classpath_and_manifest "/w" ":" "code" "out.jar" "Main" "A"
      ⟨0, "", ""⟩ ⟨0, "", ""⟩ false).2.1 (by decide),
   (dependency_classpath_and_manifest "/w" ":" "code" "out.jar" "Main" "A"
      ⟨0, "", ""⟩ ⟨0, "", ""⟩ false).2.2 ["/libs/a.jar"]⟩

/-- Claim C6: for the request with source text "public class Hello \x7b \x7d",
entry identifier "Hello", blank author, no dependencies and output
out.jar, compile_java defaults the blank author to the sentinel Unknown,
and the manifest body generated by the build thread is exactly
Manifest-Version, Main-Class and Author lines with no Class-Path line. -/
theorem hello_manifest_and_author_default :
    compile_java "public class Hello \x7b \x7d" "Hello" "" "out.jar"
      = some { java_code := "public class Hello \x7b \x7d", output_jar := "out.jar",
               main_class := "Hello", author := "Unknown" } ∧
    ∀ (cwd pathsep compileOut compileErr : String) (jarRes : ProcResult) (cf : Bool),
      (compile_java_thread [] cwd pathsep "public class Hello \x7b \x7d" "out.jar" "Hello"
          "Unknown" ⟨0, compileOut, compileErr⟩ jarRes cf).manifestWritten
        = some "Manifest-Version: 1.0\nMain-Class: Hello\nAuthor: Unknown\n" := by
  constructor
  · rfl
  · intro cwd pathsep compileOut compileErr jarRes cf
    rw [thread_manifestWritten, if_pos rfl]
    rfl

/-- Counterexample to claim C7 as stated: two dependency paths from
different directories sharing the base name x.jar are both listed on the
manifest Class-Path line, so a base name does appear twice. -/
theorem classpath_basename_duplicate_counterexample :
    classPathEntries (stagedClasspath "/w" ["/a/x.jar", "/b/x.jar"]) = ["x.jar", "x.jar"] ∧
    ¬ List.Nodup (classPathEntries (stagedClasspath "/w" ["/a/x.jar", "/b/x.jar"])) ∧
    (compile_java_thread ["/a/x.jar", "/b/x.jar"] "/w" ":" "c" "o.jar" "M" "A"
        ⟨0, "", ""⟩ ⟨0, "", ""⟩ false).manifestWritten
      = some "Manifest-Version: 1.0\nMain-Class: M\nAuthor: A\nClass-Path: x.jar x.jar\n" := by
  decide

/-- Claim C7 as amended: dependencies are deduplicated by full path at the
time they are added (a path already in the list is never added again, and
a duplicate-free list stays duplicate-free), while the manifest Class-Path
entries are the base names of all staged paths in order, with no
deduplication by base name. -/
theorem add_jar_dependency_dedups_by_full_path
    (deps files : List String) (h1 : deps.Nodup) (h2 : files.Nodup) :
    (add_jar_dependency deps files).Nodup ∧
    ∀ f ∈ deps, f ∉ files.filter (fun g => !(deps.contains g)) := by
  have hnotmem : ∀ f ∈ deps, f ∉ files.filter (fun g => !(deps.contains g)) := by
    intro f hf hmemf
    have hcond := (List.mem_filter.mp hmemf).2
    have hc : deps.contains f = true := List.elem_iff.mpr hf
    rw [hc] at hcond
    exact absurd hcond (by decide)
  refine ⟨h1.append (h2.filter _) ?_, hnotmem⟩
  intro a ha hb
  exact hnotmem a ha hb

/-- Witness for the amended C7 at concrete lists. -/
theorem add_jar_dependency_dedups_by_full_path_witness :
    (add_jar_dependency ["/a/x.jar"] ["/a/x.jar", "/b/y.jar"]).Nodup ∧
    ∀ f ∈ ["/a/x.jar"],
      f ∉ (["/a/x.jar", "/b/y.jar"].filter
            (fun g => !((["/a/x.jar"] : List String).contains g))) :=
  add_jar_dependency_dedups_by_full_path ["/a/x.jar"] ["/a/x.jar", "/b/y.jar"]
    (by decide) (by decide)

/-- The pattern never matches at the end of the text. -/
theorem matchPCAt_nil : matchPCAt [] = none := rfl

/-- A \w+ run is empty where the head is not a word character. -/
theorem takeWhile_pyWord_eq_nil (cs : List Char) (h : headNotWord cs = true) :
    cs.takeWhile pyWord = [] := by
  cases cs with
  | nil => rfl
  | cons c l =>
    have hw : pyWord c = false := by
      unfold headNotWord at h
      simpa using h
    exact List.takeWhile_cons_of_neg (by simp [hw])

/-- One match attempt at the start of public class Foo followed by any
suffix captures Foo extended by the word characters the suffix starts
with. -/
theorem matchPCAt_public_class_foo (sd : List Char) :
    matchPCAt ('p' :: 'u' :: 'b' :: 'l' :: 'i' :: 'c' :: ' ' :: 'c' :: 'l' :: 'a' :: 's'
        :: 's' :: ' ' :: 'F' :: 'o' :: 'o' :: sd)
      = some (String.mk ('F' :: 'o' :: 'o' :: sd.takeWhile pyWord)) := rfl

/-- re.search returns the capture of the earliest-starting match. -/
theorem searchPC_leftmost (cs : List Char) :
    ∀ (i : Nat) (w : String), matchPCAt (cs.drop i) = some w →
      (∀ j, j < i → matchPCAt (cs.drop j) = none) → searchPC cs = some w := by
  induction cs with
  | nil =>
    intro i w h _
    rw [List.drop_nil, matchPCAt_nil] at h
    exact Option.noConfusion h
  | cons c l ih =>
    intro i w h hlt
    cases i with
    | zero =>
      rw [List.drop_zero] at h
      simp only [searchPC]
      rw [h]
    | succ i =>
      have h0 : matchPCAt (c :: l) = none := by
        have := hlt 0 (Nat.succ_pos i)
        rwa [List.drop_zero] at this
      simp only [searchPC]
      rw [h0]
      exact ih i w (by simpa using h) (fun j hj => by simpa using hlt (j + 1) (Nat.succ_lt_succ hj))

/-- re.search returns none when no position matches. -/
theorem searchPC_no_match (cs : List Char) :
    (∀ i, i ≤ cs.length → matchPCAt (cs.drop i) = none) → searchPC cs = none := by
  induction cs with
  | nil => intro _; rfl
  | cons c l ih =>
    intro h
    have h0 : matchPCAt (c :: l) = none := by
      have := h 0 (Nat.zero_le _)
      rwa [List.drop_zero] at this
    simp only [searchPC]
    rw [h0]
    exact ih (fun i hi => by simpa using h (i + 1) (Nat.succ_le_succ hi))

/-- Claim C3: the identifier extractor is a pure function of the text: a
text starting with the token sequence public class Foo (the following
character, if any, not extending the identifier token) yields Foo; in
general the capture of the leftmost, earliest-starting occurrence of the
three-token pattern wins; and a text in which no position matches yields
the no-match result none. -/
theorem detect_main_class_contract :
    (∀ suf : String, headNotWord suf.data = true →
        detect_main_class ("public class Foo" ++ suf) = some "Foo") ∧
    (∀ (t : String) (i : Nat) (w : String),
        matchPCAt (t.data.drop i) = some w →
        (∀ j, j < i → matchPCAt (t.data.drop j) = none) →
        detect_main_class t = some w) ∧
    (∀ t : String,
        (∀ i, i ≤ t.data.length → matchPCAt (t.data.drop i) = none) →
        detect_main_class t = none) := by
  refine ⟨?_, ?_, ?_⟩
  · intro suf h
    unfold detect_main_class
    rw [String.data_append,
        show ("public class Foo" : String).data
          = 'p' :: 'u' :: 'b' :: 'l' :: 'i' :: 'c' :: ' ' :: 'c' :: 'l' :: 'a' :: 's'
              :: 's' :: ' ' :: 'F' :: 'o' :: 'o' :: [] from rfl]
    simp only [List.cons_append, List.nil_append]
    refine searchPC_leftmost _ 0 "Foo" ?_ ?_
    · rw [List.drop_zero, matchPCAt_public_class_foo, takeWhile_pyWord_eq_nil suf.data h]
    · intro j hj
      exact absurd hj (Nat.not_lt_zero j)
  · intro t i w h hlt
    exact searchPC_leftmost t.data i w h hlt
  · intro t h
    exact searchPC_no_match t.data h

/-- Witness for C3: a match with a suffix, a leftmost-wins text where an
earlier occurrence shadows a later public class Foo, and a no-match text. -/
theorem detect_main_class_contract_witness :
    detect_main_class ("public class Foo" ++ " \x7b\x7d") = some "Foo" ∧
    detect_main_class "x public class Bar public class Foo" = some "Bar" ∧
    detect_main_class "no declaration here" = none :=
  ⟨detect_main_class_contract.1 " \x7b\x7d" (by decide),
   detect_main_class_contract.2.1 "x public class Bar public class Foo" 2 "Bar"
     (by decide) (by decide),
   detect_main_class_contract.2.2 "no declaration here" (by decide)⟩

/-- A successful \w+ capture is a non-empty run of word characters. -/
theorem takeWord1_word (cs : List Char) (w : String) (h : takeWord1 cs = some w) :
    w.data ≠ [] ∧ ∀ c ∈ w.data, pyWord c = true := by
  cases cs with
  | nil => exact Option.noConfusion h
  | cons a l =>
    simp only [takeWord1] at h
    split at h
    · rename_i ha
      have hw : w = String.mk (a :: l.takeWhile pyWord) := (Option.some.inj h).symm
      subst hw
      refine ⟨fun hnil => List.noConfusion hnil, ?_⟩
      intro c hc
      rcases List.mem_cons.mp hc with rfl | h2
      · exact ha
      · exact List.mem_takeWhile_imp h2
    · exact Option.noConfusion h

/-- A successful match attempt captures a non-empty run of word
characters. -/
theorem matchPCAt_word (cs : List Char) (w : String) (h : matchPCAt cs = some w) :
    w.data ≠ [] ∧ ∀ c ∈ w.data, pyWord c = true := by
  unfold matchPCAt at h
  split at h
  · exact Option.noConfusion h
  · split at h
    · exact Option.noConfusion h
    · split at h
      · exact Option.noConfusion h
      · split at h
        · exact Option.noConfusion h
        · exact takeWord1_word _ _ h

/-- A successful search captures a non-empty run of word characters. -/
theorem searchPC_word (cs : List Char) :
    ∀ w : String, searchPC cs = some w →
      w.data ≠ [] ∧ ∀ c ∈ w.data, pyWord c = true := by
  induction cs with
  | nil => intro w h; exact Option.noConfusion h
  | cons c l ih =>
    intro w h
    simp only [searchPC] at h
    cases hm : matchPCAt (c :: l) with
    | some w2 =>
      rw [hm] at h
      have hw : w2 = w := Option.some.inj h
      exact hw ▸ matchPCAt_word _ _ hm
    | none =>
      rw [hm] at h
      exact ih w h

/-- Counterexample to claim C9 as stated: the build proceeds to spawn
external processes with an entry identifier defaulted by the extractor
that starts with a digit, violating identifier syntax; nothing validates
it. -/
theorem entry_identifier_not_validated_counterexample :
    compile_java "public class 9Bad \x7b \x7d" "" "" "out.jar"
      = some { java_code := "public class 9Bad \x7b \x7d", output_jar := "out.jar",
               main_class := "9Bad", author := "Unknown" } ∧
    specValidIdentifier "9Bad" = false := by
  decide

/-- Claim C9 as amended: the entry identifier of every build that proceeds
to spawn external processes is non-empty, and when it is defaulted from
the extractor it is a non-empty run of word characters (letters, digits,
underscores); it is not validated against full identifier syntax and may
start with a digit, and a user-supplied identifier is passed through
unvalidated. -/
theorem compile_java_entry_identifier
    (editorText mainClassEntry authorEntry chosenOutput : String) (args : ThreadArgs)
    (h : compile_java editorText mainClassEntry authorEntry chosenOutput = some args) :
    args.main_class ≠ "" ∧
    (pyStrip mainClassEntry = "" →
      args.main_class.data ≠ [] ∧ ∀ c ∈ args.main_class.data, pyWord c = true) := by
  unfold compile_java at h
  split at h
  · exact Option.noConfusion h
  · split at h
    · exact Option.noConfusion h
    · rename_i main_class heq
      split at h
      · exact Option.noConfusion h
      · have harg := Option.some.inj h
        subst harg
        by_cases hentry : pyStrip mainClassEntry = ""
        · rw [if_pos hentry] at heq
          have hword := searchPC_word (pyStrip editorText).data main_class heq
          refine ⟨?_, fun _ => hword⟩
          intro he
          exact hword.1 (by rw [show main_class = "" from he])
        · rw [if_neg hentry] at heq
          have hmc : main_class = pyStrip mainClassEntry := (Option.some.inj heq).symm
          refine ⟨?_, fun hcontra => absurd hcontra hentry⟩
          rw [show (({ java_code := pyStrip editorText, output_jar := chosenOutput,
                       main_class := main_class,
                       author := if pyStrip authorEntry = "" then "Unknown"
                                 else pyStrip authorEntry } : ThreadArgs).main_class)
                = main_class from rfl, hmc]
          exact hentry

/-- Witness for the amended C9 at a concrete request with a defaulted
identifier. -/
theorem compile_java_entry_identifier_witness :
    ({ java_code := "public class Abc", output_jar := "o.jar",
       main_class := "Abc", author := "Unknown" } : ThreadArgs).main_class ≠ "" ∧
    (pyStrip "" = "" →
      ({ java_code := "public class Abc", output_jar := "o.jar",
         main_class := "Abc", author := "Unknown" } : ThreadArgs).main_class.data ≠ [] ∧
      ∀ c ∈ ({ java_code := "public class Abc", output_jar := "o.jar",
               main_class := "Abc", author := "Unknown" } : ThreadArgs).main_class.data,
        pyWord c = true) :=
  compile_java_entry_identifier "public class Abc" "" "" "o.jar"
    { java_code := "public class Abc", output_jar := "o.jar",
      main_class := "Abc", author := "Unknown" } (by decide)

/-- The code handed to the worker thread is the stripped editor text. -/
theorem compile_java_strips_code
    (editorText mainClassEntry authorEntry chosenOutput : String) (args : ThreadArgs)
    (h : compile_java editorText mainClassEntry authorEntry chosenOutput = some args) :
    args.java_code = pyStrip editorText := by
  unfold compile_java at h
  split at h
  · exact Option.noConfusion h
  · split at h
    · exact Option.noConfusion h
    · split at h
      · exact Option.noConfusion h
      · rw [← Option.some.inj h]

/-- Claim C10: for every invocation through the public entry point
compile_java, the source file materialized by the build thread is named
from the entry identifier and contains the editor text with leading and
trailing whitespace removed - compile_java strips the text once, and the
thread writes its argument without further transformation. -/
theorem materialized_source_is_stripped
    (editorText mainClassEntry authorEntry chosenOutput : String) (args : ThreadArgs)
    (h : compile_java editorText mainClassEntry authorEntry chosenOutput = some args)
    (jarDeps : List String) (cwd pathsep : String)
    (compileRes jarRes : ProcResult) (cf : Bool) :
    (compile_java_thread jarDeps cwd pathsep args.java_code args.output_jar args.main_class
        args.author compileRes jarRes cf).javaWritten
      = some ("temp_build/" ++ args.main_class ++ ".java", pyStrip editorText) := by
  rw [thread_javaWritten,
      compile_java_strips_code editorText mainClassEntry authorEntry chosenOutput args h]

/-- Witness for C10 at a concrete request whose editor text carries leading
and trailing whitespace. -/
theorem materialized_source_is_stripped_witness :
    (compile_java_thread [] "/w" ":"
        ({ java_code := "public class A", output_jar := "o.jar",
           main_class := "A", author := "Unknown" } : ThreadArgs).java_code
        ({ java_code := "public class A", output_jar := "o.jar",
           main_class := "A", author := "Unknown" } : ThreadArgs).output_jar
        ({ java_code := "public class A", output_jar := "o.jar",
           main_class := "A", author := "Unknown" } : ThreadArgs).main_class
        ({ java_code := "public class A", output_jar := "o.jar",
           main_class := "A", author := "Unknown" } : ThreadArgs).author
        ⟨0, "", ""⟩ ⟨0, "", ""⟩ false).javaWritten
      = some ("temp_build/" ++
                ({ java_code := "public class A", output_jar := "o.jar",
                   main_class := "A", author := "Unknown" } : ThreadArgs).main_class
                ++ ".java",
              pyStrip "  public class A\n") :=
  materialized_source_is_stripped "  public class A\n" "A" "" "o.jar"
    { java_code := "public class A", output_jar := "o.jar",
      main_class := "A", author := "Unknown" } (by decide)
    [] "/w" ":" ⟨0, "", ""⟩ ⟨0, "", ""⟩ false
